import Mathlib

/-
  Shallow embedding of src/lib/billingRouter.js (ReVu Systems AI Billing Router).

  Modelling conventions:
  * JavaScript numbers are modelled as rationals (ℚ).  The one reachable NaN
    (the `complexProcedures / claim.procedures.length` division when the
    procedure list is empty, billingRouter.js line 186) is modelled by the
    type `JNum := Option ℚ`, where `none` stands for NaN; NaN propagates
    through arithmetic and `Math.min`, and every comparison with NaN is false,
    exactly as in JS.
  * Date values (serviceDate / submissionDate, and the clock used by
    `estimateCompletionTime`) are modelled as millisecond timestamps in ℚ.
  * Thrown JS errors are modelled by `Except JsError`.  `missingClaim` is the
    explicit `throw new Error('Claim data is required')`; `typeError` is the
    TypeError raised by reading `.length`/`.map`/`.some` of an absent
    `claim.procedures`; `rangeError` is the RangeError raised by
    `new Date(NaN).toISOString()` in `estimateCompletionTime`.
  * The mutable metrics of the `BillingRouter` instance are modelled with an
    explicit object store (`Store`), because `getMetrics` returns the shallow
    copy `{ ...this.metrics }`: the scalar fields are copied by value while
    the nested `routedClaims` / `averageProcessingTime` objects are shared by
    reference.  `ObjId` values play the role of JS object references.
-/

namespace BillingRouter

/-- A JavaScript number that may be NaN; `none` models NaN. -/
abbrev JNum := Option ℚ

/-- JS addition: NaN propagates. -/
def jadd : JNum → JNum → JNum
  | some x, some y => some (x + y)
  | _, _ => none

/-- JS multiplication by a (non-NaN) constant: NaN propagates. -/
def jmulC (a : JNum) (c : ℚ) : JNum := a.map (fun x => x * c)

/-- JS `Math.min` against a (non-NaN) constant: `Math.min(NaN, c)` is NaN. -/
def jminC (a : JNum) (c : ℚ) : JNum := a.map (fun x => min x c)

/-- JS division of two counts.  When the denominator is 0 the only reachable
numerator is 0 (a filtered sublist of an empty list), so the result is the
NaN `0 / 0`, modelled by `none`. -/
def jdivCount (a b : ℕ) : JNum :=
  if b = 0 then none else some ((a : ℚ) / (b : ℚ))

/-- JS strict `x > t` where `x` may be NaN: any comparison with NaN is false. -/
def jgtB (a : JNum) (t : ℚ) : Bool :=
  match a with
  | none => false
  | some x => decide (t < x)

/-- JS `Math.max(u, c, v)` where the middle argument may be NaN. -/
def jmax3 (u : ℚ) (c : JNum) (v : ℚ) : JNum :=
  c.map (fun x => max (max u x) v)

/-- JS `Math.round`: round half toward positive infinity. -/
def jsRound (q : ℚ) : ℤ := ⌊q + 1/2⌋

/-- An integer rational built directly from its normal form (numerically the
same as the numeral, but cheap for the kernel to evaluate). -/
def ratOfNat (n : ℕ) : ℚ := ⟨Int.ofNat n, 1, one_ne_zero, Nat.coprime_one_right _⟩

/-- Milliseconds in an hour (the `baseHours * 60 * 60 * 1000` factor of
billingRouter.js line 540). -/
def msPerHour : ℚ := ratOfNat 3600000

/-- Milliseconds in a day (the `1000 * 60 * 60 * 24` divisor of
billingRouter.js line 219). -/
def msPerDay : ℚ := ratOfNat 86400000

/-- The high-value normalization threshold of `calculateValue` (line 261). -/
def valueThreshold : ℚ := ratOfNat 2000

/-- One billable line item (billingRouter.js claim.procedures entries). -/
structure Procedure where
  code : String
  toothNumber : Option String
  fee : Option ℚ
deriving DecidableEq, Repr

/-- An entry of claim.previousClaims. -/
structure PrevClaim where
  status : String
deriving DecidableEq, Repr

/-- claim.patientHistory. -/
structure PatientHistory where
  medicalConditions : List String
deriving DecidableEq, Repr

/-- A submitted billing claim, with `Option` for fields a caller may omit. -/
structure Claim where
  id : String
  procedures : Option (List Procedure)
  payerId : Option String
  emergency : Bool
  serviceDate : Option ℚ
  submissionDate : Option ℚ
  patientStatus : Option String
  painIndicated : Bool
  previousClaims : Option (List PrevClaim)
  patientHistory : Option PatientHistory
  coverageVerification : Option String
  patientPaymentHistory : Option String
  attachments : Option (List String)
  narrative : Option String
  requiresPreauth : Bool
  diagnosis : Option String
deriving DecidableEq, Repr

/-- Errors thrown by the router (see the modelling notes at the top). -/
inductive JsError where
  | missingClaim
  | typeError
  | rangeError
deriving DecidableEq, Repr

/-- The closed set of route types (keys of `this.routingTable`). -/
inductive RouteType where
  | DEFAULT
  | EMERGENCY
  | COMPLEX
  | HIGH_VALUE
  | PREAUTHORIZATION
deriving DecidableEq, Repr

/-- A row of `this.routingTable` (billingRouter.js lines 41-67). -/
structure RouteEntry where
  processor : String
  priority : String
  validation : String
deriving DecidableEq, Repr

/-- Table `this.routingTable`, billingRouter.js lines 41-67. -/
def routingTable : RouteType → RouteEntry
  | .DEFAULT => ⟨"standardProcessor", "normal", "basic"⟩
  | .EMERGENCY => ⟨"expeditedProcessor", "high", "minimal"⟩
  | .COMPLEX => ⟨"specialistProcessor", "normal", "enhanced"⟩
  | .HIGH_VALUE => ⟨"premiumProcessor", "high", "comprehensive"⟩
  | .PREAUTHORIZATION => ⟨"preauthProcessor", "normal", "strict"⟩

/-- Procedure-code test of `calculateComplexity` (lines 179-184): implant,
oral surgery, periodontics, endodontics prefixes. -/
def isComplexProcedure (p : Procedure) : Bool :=
  p.code.startsWith ("D6") || p.code.startsWith ("D7") ||
  p.code.startsWith ("D4") || p.code.startsWith ("D3")

/-- Term `Math.min(claim.procedures.length / 10, 0.3)` (line 176). -/
def complexityCountTerm (procs : List Procedure) : ℚ :=
  min ((procs.length : ℚ) / 10) (3/10)

/-- Term `(complexProcedures / claim.procedures.length) * 0.3` (line 186); this is
the division that produces NaN on an empty procedure list. -/
def complexityTypeTerm (procs : List Procedure) : JNum :=
  jmulC (jdivCount (procs.filter isComplexProcedure).length procs.length) (3/10)

/-- Attachment term of complexity (lines 189-191). -/
def complexityAttachmentsTerm (attachments : Option (List String)) : ℚ :=
  match attachments with
  | some atts => if 0 < atts.length then min ((atts.length : ℚ) / 5) (1/5) else 0
  | none => 0

/-- Patient-history term of complexity (lines 194-196). -/
def complexityHistoryTerm (history : Option PatientHistory) : ℚ :=
  match history with
  | some h => min ((h.medicalConditions.length : ℚ) / 3) (1/5)
  | none => 0

/-- Method `calculateComplexity` (billingRouter.js lines 171-199).  Reading
`claim.procedures.length` of an absent list throws a TypeError. -/
def calculateComplexity (claim : Claim) : Except JsError JNum :=
  match claim.procedures with
  | none => Except.error JsError.typeError
  | some procs =>
      Except.ok (jminC
        (jadd (jadd (jadd (some (complexityCountTerm procs))
          (complexityTypeTerm procs)) (some (complexityAttachmentsTerm claim.attachments)))
          (some (complexityHistoryTerm claim.patientHistory))) 1)

/-- Emergency term of urgency (lines 211-213). -/
def urgencyEmergencyTerm (emergency : Bool) : ℚ :=
  if emergency then 1/2 else 0

/-- Recency bonus of urgency (lines 216-229); dates are ms timestamps and a
day is 86400000 ms. -/
def urgencyRecencyTerm (serviceDate submissionDate : Option ℚ) : ℚ :=
  match serviceDate, submissionDate with
  | some sd, some sub =>
      let days := (sub - sd) / msPerDay
      if days ≤ 1 then 3/10 else if days ≤ 5 then 1/5 else if days ≤ 10 then 1/10 else 0
  | _, _ => 0

/-- New-patient term of urgency (lines 232-234). -/
def urgencyStatusTerm (patientStatus : Option String) : ℚ :=
  if patientStatus = some ("new") then 1/10 else 0

/-- Pain term of urgency (lines 237-239). -/
def urgencyPainTerm (painIndicated : Bool) : ℚ :=
  if painIndicated then 1/5 else 0

/-- Method `calculateUrgency` (billingRouter.js lines 207-242). -/
def calculateUrgency (claim : Claim) : ℚ :=
  min (urgencyEmergencyTerm claim.emergency +
    urgencyRecencyTerm claim.serviceDate claim.submissionDate +
    urgencyStatusTerm claim.patientStatus + urgencyPainTerm claim.painIndicated) 1

/-- Total of procedure fees (lines 254-257); `procedure.fee || 0` defaults an
absent fee to 0. -/
def claimTotalFees (claim : Claim) : ℚ :=
  match claim.procedures with
  | some procs =>
      if 0 < procs.length then procs.foldl (fun s p => s + p.fee.getD 0) 0 else 0
  | none => 0

/-- Method `calculateValue` (billingRouter.js lines 250-264): fees normalized
against a 2000 threshold. -/
def calculateValue (claim : Claim) : ℚ :=
  min (claimTotalFees claim / valueThreshold) 1

/-- Denied-previous-claims term of risk (lines 276-279). -/
def riskDeniedTerm (previousClaims : Option (List PrevClaim)) : ℚ :=
  match previousClaims with
  | some prev => min (((prev.filter (fun c => c.status == "denied")).length : ℚ) / 5) (3/10)
  | none => 0

/-- Comorbidity term of risk (lines 282-284). -/
def riskHistoryTerm (history : Option PatientHistory) : ℚ :=
  match history with
  | some h => min ((h.medicalConditions.length : ℚ) / 5) (3/10)
  | none => 0

/-- Coverage term of risk (lines 287-289); an empty string is falsy in JS. -/
def riskCoverageTerm (coverage : Option String) : ℚ :=
  match coverage with
  | some s => if s != "" && s != "verified" then 1/5 else 0
  | none => 0

/-- Payment-history term of risk (lines 292-294). -/
def riskPaymentTerm (paymentHistory : Option String) : ℚ :=
  if paymentHistory = some ("delinquent") then 1/5 else 0

/-- Method `calculatePatientRisk` (billingRouter.js lines 272-297). -/
def calculatePatientRisk (claim : Claim) : ℚ :=
  min (riskDeniedTerm claim.previousClaims + riskHistoryTerm claim.patientHistory +
    riskCoverageTerm claim.coverageVerification + riskPaymentTerm claim.patientPaymentHistory) 1

/-- Fixed narrative-required procedure codes (lines 308-313). -/
def narrativeRequiredCodes : List String :=
  ["D4341", "D4342", "D2740", "D2750", "D6010", "D6056", "D7140", "D7210"]

/-- Fixed narrative-required payers (line 328). -/
def narrativeRequiredPayers : List String := ["medicare", "medicaid", "cigna"]

/-- Method `isNarrativeRequired` (billingRouter.js lines 305-334); `.some` on an
absent procedure list throws a TypeError. -/
def isNarrativeRequired (claim : Claim) : Except JsError Bool :=
  match claim.procedures with
  | none => Except.error JsError.typeError
  | some procs =>
      if procs.any (fun p => narrativeRequiredCodes.contains p.code) then Except.ok true
      else if 7/10 < calculateValue claim then Except.ok true
      else
        match claim.payerId with
        | some pid => Except.ok (narrativeRequiredPayers.contains pid.toLower)
        | none => Except.ok false

/-- The characteristics record built by `analyzeClaimCharacteristics`
(billingRouter.js lines 146-155). -/
structure Characteristics where
  complexity : JNum
  urgency : ℚ
  value : ℚ
  payer : String
  patientRisk : ℚ
  previousClaims : List PrevClaim
  dentalCodes : List String
  narrativeRequired : Bool
deriving DecidableEq, Repr

/-- Method `analyzeClaimCharacteristics` (billingRouter.js lines 142-163).  The
object-literal fields are evaluated top to bottom, so an absent procedure
list throws from `calculateComplexity` first. -/
def analyzeClaimCharacteristics (claim : Claim) : Except JsError Characteristics := do
  let complexity ← calculateComplexity claim
  let urgency := calculateUrgency claim
  let value := calculateValue claim
  let payer :=
    match claim.payerId with
    | some p => if p == "" then ("unknown") else p
    | none => ("unknown")
  let patientRisk := calculatePatientRisk claim
  let previousClaims := claim.previousClaims.getD []
  let dentalCodes ←
    match claim.procedures with
    | some procs => Except.ok (procs.map (fun p => p.code))
    | none => Except.error JsError.typeError
  let narrativeRequired ← isNarrativeRequired claim
  return { complexity, urgency, value, payer, patientRisk, previousClaims,
           dentalCodes, narrativeRequired }

/-- The route record built by `determineOptimalRoute` (lines 366-371). -/
structure Route where
  type : RouteType
  processor : String
  priority : String
  validation : String
  reason : String
  confidenceScore : JNum
deriving DecidableEq, Repr

/-- Method `calculateRouteConfidence` (billingRouter.js lines 388-413); the 0.5 base
confidence is overwritten in every branch. -/
def calculateRouteConfidence (ch : Characteristics) (routeType : RouteType) : JNum :=
  match routeType with
  | .EMERGENCY => some ch.urgency
  | .COMPLEX => ch.complexity
  | .HIGH_VALUE => some ch.value
  | .PREAUTHORIZATION => some (85/100)
  | .DEFAULT => (jmax3 ch.urgency ch.complexity ch.value).map (fun m => 1 - m)

/-- Number formatting used by the reason string, a rational rendering of
`Number.prototype.toFixed(2)` (exact for the reachable non-negative scores). -/
def ratToFixed2 (q : ℚ) : String :=
  let n : ℤ := ⌊q * 100 + 1/2⌋
  let m : ℕ := n.natAbs
  let sgn := if n < 0 then ("-") else ("")
  let frac := m % 100
  sgn ++ toString (m / 100) ++ (".") ++
    (if frac < 10 then ("0") ++ toString frac else toString frac)

/-- Formatting `toFixed(2)` of a value that may be NaN. -/
def jnumToFixed2 : JNum → String
  | none => "NaN"
  | some q => ratToFixed2 q

/-- Method `determineOptimalRoute` (billingRouter.js lines 343-379): first-match
rule chain, routing-table spread, reason string, confidence. -/
def determineOptimalRoute (claim : Claim) (ch : Characteristics) : Route :=
  let routeType : RouteType :=
    if ch.urgency > 7/10 then .EMERGENCY
    else if jgtB ch.complexity (7/10) then .COMPLEX
    else if ch.value > 7/10 then .HIGH_VALUE
    else if claim.requiresPreauth then .PREAUTHORIZATION
    else .DEFAULT
  { type := routeType
    processor := (routingTable routeType).processor
    priority := (routingTable routeType).priority
    validation := (routingTable routeType).validation
    reason := ("Selected based on claim characteristics: complexity=") ++
      jnumToFixed2 ch.complexity ++ (", urgency=") ++ ratToFixed2 ch.urgency ++
      (", value=") ++ ratToFixed2 ch.value
    confidenceScore := calculateRouteConfidence ch routeType }

/-- The optimized claim: `{ ...claim }` plus the optional
`recommendedDocumentation` field added by the optimizer. -/
structure OptimizedClaim extends Claim where
  recommendedDocumentation : Option (List String)
deriving DecidableEq, Repr

/-- Placeholder narrative inserted by the optimizer (line 437). -/
def aiNarrativePlaceholder : String :=
  "[AI Generated Narrative would be inserted here based on claim details]"

/-- Fixed recommended-documentation list (lines 443-447). -/
def recommendedDocs : List String :=
  ["Additional clinical notes", "Pre-operative images", "Post-operative images"]

/-- Condition `!claim.narrative || claim.narrative.length === 0` (line 436). -/
def narrativeMissing (claim : Claim) : Bool :=
  match claim.narrative with
  | none => true
  | some s => s.length == 0

/-- Constructor options of `BillingRouter` (lines 33-39). -/
structure RouterOptions where
  useAdvancedAI : Bool
  trackMetrics : Bool
  optimizationLevel : String
deriving DecidableEq, Repr

/-- The defaults `{ useAdvancedAI: true, trackMetrics: true,
optimizationLevel: 'aggressive' }`. -/
def defaultRouterOptions : RouterOptions := ⟨true, true, "aggressive"⟩

/-- Method `applyAIOptimizations` (billingRouter.js lines 422-464).  Returns the
shallow-copied, possibly augmented claim together with the
`optimizationsApplied` flag that drives the `aiOptimizations` counter. -/
def applyAIOptimizations (opts : RouterOptions) (claim : Claim) (route : Route) :
    Except JsError (OptimizedClaim × Bool) := do
  let a1 : Bool :=
    (match claim.diagnosis with
     | some d => d != ""
     | none => false) && claim.procedures.isSome
  let nr ← isNarrativeRequired claim
  let needNarr : Bool := nr && narrativeMissing claim
  let narr := if needNarr then some aiNarrativePlaceholder else claim.narrative
  let needDocs : Bool := route.type == RouteType.COMPLEX || route.type == RouteType.HIGH_VALUE
  let docs := if needDocs then some recommendedDocs else none
  let applied := a1 || needNarr || needDocs || (opts.optimizationLevel == "aggressive")
  Except.ok (⟨{ claim with narrative := narr }, docs⟩, applied)

/-- The instruction record of `generateProcessingInstructions` (lines 472-501). -/
structure ProcessingInstructions where
  processorId : String
  priority : String
  validationLevel : String
  specialHandling : List String
deriving DecidableEq, Repr

/-- Method `generateProcessingInstructions` (billingRouter.js lines 472-501). -/
def generateProcessingInstructions (route : Route) : ProcessingInstructions :=
  { processorId := route.processor
    priority := route.priority
    validationLevel := route.validation
    specialHandling :=
      match route.type with
      | .EMERGENCY => ["Expedite processing", "Skip non-critical validations"]
      | .COMPLEX => ["Assign to specialist reviewer", "Review narrative documentation"]
      | .HIGH_VALUE => ["Double verification required", "Check procedure code bundling"]
      | .PREAUTHORIZATION => ["Check plan-specific requirements", "Verify service limitations"]
      | .DEFAULT => [] }

/-- The value returned by `estimateCompletionTime` (lines 542-545), with the
ISO timestamp kept as the underlying millisecond instant. -/
structure CompletionEstimate where
  hours : ℤ
  timestampMs : ℚ
deriving DecidableEq, Repr

/-- Method `estimateCompletionTime` (billingRouter.js lines 510-546).  When the
recomputed complexity is NaN (empty procedure list) the base hours are NaN
and `new Date(NaN).toISOString()` throws a RangeError. -/
def estimateCompletionTime (route : Route) (claim : Claim) (nowMs : ℚ) :
    Except JsError CompletionEstimate := do
  let priorityBase : ℚ := if route.priority == "high" then 8 else 24
  let typeBase : ℚ :=
    match route.type with
    | .EMERGENCY => 4
    | .COMPLEX => 48
    | .HIGH_VALUE => 36
    | .PREAUTHORIZATION => 72
    | .DEFAULT => priorityBase
  let cx ← calculateComplexity claim
  match cx with
  | none => Except.error JsError.rangeError
  | some c =>
      let baseHours := typeBase * (1 + c)
      Except.ok { hours := jsRound baseHours, timestampMs := nowMs + baseHours * msPerHour }

/-- A JS object reference inside the metrics store. -/
abbrev ObjId := ℕ

/-- The heap of nested metrics objects.  `countObjs` holds `routedClaims`
objects (absent key read as 0, which is what the `!routedClaims[type]`
initialization amounts to); `avgObjs` holds `averageProcessingTime` objects
(`none` = key absent). -/
structure Store where
  nextId : ObjId
  countObjs : ObjId → RouteType → ℕ
  avgObjs : ObjId → RouteType → Option ℚ

/-- The shape of `this.metrics` (lines 70-76): scalar counters plus
references to the nested per-route-type objects. -/
structure MetricsObj where
  totalClaims : ℕ
  routedClaims : ObjId
  averageProcessingTime : ObjId
  approvalRates : ObjId
  aiOptimizations : ℕ
deriving DecidableEq, Repr

/-- The full mutable state of a `BillingRouter` instance. -/
structure EngineState where
  metrics : MetricsObj
  store : Store

/-- The state right after the constructor runs (lines 70-76): zero counters
and fresh empty nested objects. -/
def initState : EngineState :=
  { metrics := { totalClaims := 0, routedClaims := 0, averageProcessingTime := 1,
                 approvalRates := 2, aiOptimizations := 0 }
    store := { nextId := 3, countObjs := fun _ _ => 0, avgObjs := fun _ _ => none } }

/-- Method `updateMetrics` (billingRouter.js lines 554-572).  Note the JS truthiness
check `if (!this.metrics.averageProcessingTime[route.type])`: both an absent
key and a stored average of 0 take the initialization branch. -/
def updateMetrics (s : EngineState) (routeType : RouteType) (processingTime : ℚ) :
    EngineState :=
  let cid := s.metrics.routedClaims
  let aid := s.metrics.averageProcessingTime
  let newCount := s.store.countObjs cid routeType + 1
  let newAvg : ℚ :=
    match s.store.avgObjs aid routeType with
    | none => processingTime
    | some a =>
        if a = 0 then processingTime
        else (a * ((newCount : ℚ) - 1) + processingTime) / (newCount : ℚ)
  { metrics := { s.metrics with totalClaims := s.metrics.totalClaims + 1 }
    store := { s.store with
      countObjs := fun i t =>
        if i == cid && t == routeType then newCount else s.store.countObjs i t
      avgObjs := fun i t =>
        if i == aid && t == routeType then some newAvg else s.store.avgObjs i t } }

/-- Increment `this.metrics.aiOptimizations++` performed inside `applyAIOptimizations`
(line 459). -/
def recordOptimization (s : EngineState) : EngineState :=
  { s with metrics := { s.metrics with aiOptimizations := s.metrics.aiOptimizations + 1 } }

/-- Method `getMetrics` (billingRouter.js lines 578-580): `{ ...this.metrics }` is a
shallow copy, so the returned record carries the same references to the
nested objects. -/
def getMetrics (s : EngineState) : MetricsObj := s.metrics

/-- Method `resetMetrics` (billingRouter.js lines 585-595): replaces `this.metrics`
with fresh zero counters and fresh empty nested objects. -/
def resetMetrics (s : EngineState) : EngineState :=
  { metrics := { totalClaims := 0, routedClaims := s.store.nextId,
                 averageProcessingTime := s.store.nextId + 1,
                 approvalRates := s.store.nextId + 2, aiOptimizations := 0 }
    store := { s.store with nextId := s.store.nextId + 3 } }

/-- The routing result object (billingRouter.js lines 120-126). -/
structure RoutingResult where
  originalClaim : Claim
  optimizedClaim : OptimizedClaim
  route : Route
  processingInstructions : ProcessingInstructions
  estimatedCompletionTime : CompletionEstimate
deriving DecidableEq, Repr

/-- Method `routeClaim` (billingRouter.js lines 86-134).  `nowMs` models the
`new Date()` read in `estimateCompletionTime` and `elapsedMs` the measured
`Date.now() - startTime` recorded in the metrics.  State mutations happen at
the same points as in the source: `aiOptimizations` inside the optimizer,
then `updateMetrics`, and only then the completion estimate (whose RangeError
therefore leaves the metrics already updated). -/
def routeClaim (opts : RouterOptions) (s : EngineState) (claimInput : Option Claim)
    (nowMs elapsedMs : ℚ) : Except JsError RoutingResult × EngineState :=
  match claimInput with
  | none => (Except.error JsError.missingClaim, s)
  | some claim =>
      match analyzeClaimCharacteristics claim with
      | .error e => (Except.error e, s)
      | .ok ch =>
          let route := determineOptimalRoute claim ch
          let optStep : Except JsError (OptimizedClaim × Bool) :=
            if opts.useAdvancedAI then applyAIOptimizations opts claim route
            else Except.ok (⟨claim, none⟩, false)
          match optStep with
          | .error e => (Except.error e, s)
          | .ok (optimizedClaim, applied) =>
              let s1 := if opts.useAdvancedAI && applied then recordOptimization s else s
              let s2 := if opts.trackMetrics then updateMetrics s1 route.type elapsedMs else s1
              match estimateCompletionTime route optimizedClaim.toClaim nowMs with
              | .error e => (Except.error e, s2)
              | .ok est =>
                  (Except.ok { originalClaim := claim, optimizedClaim, route,
                               processingInstructions := generateProcessingInstructions route,
                               estimatedCompletionTime := est }, s2)

/-- The error of a failed computation, if any (used to observe which JS
error a call throws). -/
def errorOf {α : Type} : Except JsError α → Option JsError
  | .error e => some e
  | .ok _ => none

instance {ε α : Type} [DecidableEq ε] [DecidableEq α] : DecidableEq (Except ε α) := fun x y =>
  match x, y with
  | .ok a, .ok b => if h : a = b then isTrue (by rw [h]) else isFalse (by simp [h])
  | .error e, .error f => if h : e = f then isTrue (by rw [h]) else isFalse (by simp [h])
  | .ok _, .error _ => isFalse (by simp)
  | .error _, .ok _ => isFalse (by simp)

/-- A claim whose `procedures` field is present but an empty sequence; every
other optional field is absent and every flag false. -/
def emptyProcClaim : Claim :=
  { id := "claim-empty", procedures := some [], payerId := none, emergency := false,
    serviceDate := none, submissionDate := none, patientStatus := none,
    painIndicated := false, previousClaims := none, patientHistory := none,
    coverageVerification := none, patientPaymentHistory := none, attachments := none,
    narrative := none, requiresPreauth := false, diagnosis := none }

/-- The single procedure of the spec's boundary scenario: fee 100, a code
outside the complex-procedure and narrative-required sets. -/
def boundaryProcs : List Procedure := [⟨"D0120", none, some 100⟩]

/-- The spec's boundary scenario: emergency=true, painIndicated=true, one
procedure with fee 100, no dates, not a new patient. -/
def boundaryClaim : Claim :=
  { id := "claim-boundary", procedures := some boundaryProcs, payerId := none,
    emergency := true, serviceDate := none, submissionDate := none,
    patientStatus := none, painIndicated := true, previousClaims := none,
    patientHistory := none, coverageVerification := none,
    patientPaymentHistory := none, attachments := none, narrative := none,
    requiresPreauth := false, diagnosis := none }

/-- A minimal valid claim: one zero-fee procedure, nothing else set.  Its
complexity is 1/10 and it routes to DEFAULT. -/
def simpleClaim : Claim :=
  { id := "claim-simple", procedures := some [⟨"D0120", none, some 0⟩], payerId := none,
    emergency := false, serviceDate := none, submissionDate := none,
    patientStatus := none, painIndicated := false, previousClaims := none,
    patientHistory := none, coverageVerification := none,
    patientPaymentHistory := none, attachments := none, narrative := none,
    requiresPreauth := false, diagnosis := none }

/-- A DEFAULT route exactly as the routing table produces it. -/
def sampleDefaultRoute : Route :=
  { type := RouteType.DEFAULT, processor := "standardProcessor", priority := "normal",
    validation := "basic", reason := "", confidenceScore := some 1 }

/-- Modelled from the spec: the documented decision order, a pure function of
(urgency, complexity, value, requiresPreauth) with first-match-wins ordering
and strict thresholds (spec section 4.2). -/
def specRouteOrder (urgency : ℚ) (complexity : JNum) (value : ℚ)
    (requiresPreauth : Bool) : RouteType :=
  if urgency > 7/10 then .EMERGENCY
  else if jgtB complexity (7/10) then .COMPLEX
  else if value > 7/10 then .HIGH_VALUE
  else if requiresPreauth then .PREAUTHORIZATION
  else .DEFAULT

/-- Modelled from the spec: base hours by priority (high 8, else 24) then
overridden by the type-specific base, DEFAULT keeping the priority-derived
base (spec section 4.4). -/
def specBaseHours (route : Route) : ℚ :=
  match route.type with
  | .EMERGENCY => 4
  | .COMPLEX => 48
  | .HIGH_VALUE => 36
  | .PREAUTHORIZATION => 72
  | .DEFAULT => if route.priority == "high" then 8 else 24

/-- The constructor-built integer rationals agree with the numerals. -/
theorem ratOfNat_eq (n : ℕ) : ratOfNat n = (n : ℚ) := by
  rw [ratOfNat, Rat.mk'_eq_divInt]
  simp

/-- Bind of a successful step reduces. -/
theorem except_ok_bind {ε α β : Type} (a : α) (f : α → Except ε β) :
    (Except.ok a : Except ε α) >>= f = f a := rfl

/-- C1: refuted on the code.  For a claim whose `procedures` is the empty
sequence, the analyzer does not fail with a validation error: the division by
the procedure count silently yields NaN (`0 / 0`), the characteristics are
produced with `complexity = NaN`, and `routeClaim` proceeds (updating the
metrics) until `new Date(NaN).toISOString()` throws a RangeError in the
completion estimate — not a validation error, and only after scores and a
route were produced. -/
theorem c1_empty_procedures_not_validated :
    (analyzeClaimCharacteristics emptyProcClaim).toOption.map (fun ch => ch.complexity)
      = some none
    ∧ errorOf (routeClaim defaultRouterOptions initState (some emptyProcClaim) 0 5).1
      = some JsError.rangeError := by
  constructor
  · with_unfolding_all decide
  · with_unfolding_all decide

/-- C2: confirmed.  The selected route type is a pure function of
(urgency, complexity, value, requiresPreauth) following exactly the
documented first-match order with strict thresholds, and in the boundary
scenario (emergency=true, painIndicated=true, one fee-100 procedure) the
urgency is exactly 0.7, which does not trigger EMERGENCY: the claim routes
to DEFAULT. -/
theorem c2_route_selection_first_match :
    (∀ (claim : Claim) (ch : Characteristics),
      (determineOptimalRoute claim ch).type
        = specRouteOrder ch.urgency ch.complexity ch.value claim.requiresPreauth)
    ∧ (analyzeClaimCharacteristics boundaryClaim).toOption.map (fun ch => ch.urgency)
        = some (7/10)
    ∧ (routeClaim defaultRouterOptions initState (some boundaryClaim) 0 1).1.toOption.map
        (fun r => r.route.type) = some RouteType.DEFAULT := by
  refine ⟨fun claim ch => rfl, by with_unfolding_all decide, by with_unfolding_all decide⟩

/-- C3: refuted on the code.  Recording elapsed values 0 then 10 for the same
route type leaves an average of 10, not the mean 5: the truthiness check
`if (!averageProcessingTime[type])` treats a stored average of 0 as absent
and re-initializes the bucket instead of applying the incremental mean. -/
theorem c3_zero_average_reinitialized :
    (let s1 := updateMetrics initState RouteType.DEFAULT 0
     let s2 := updateMetrics s1 RouteType.DEFAULT 10
     s2.store.avgObjs s2.metrics.averageProcessingTime RouteType.DEFAULT = some 10)
    ∧ ((0 : ℚ) + 10) / 2 = 5 ∧ (10 : ℚ) ≠ 5 := by
  refine ⟨by with_unfolding_all decide, by norm_num, by norm_num⟩

set_option maxRecDepth 2000 in
/-- C6 counterexample: the claim as stated is false.  For a minimal DEFAULT
claim (complexity 1/10) the returned hours are round(24 × 1.1) = 26, but the
returned timestamp is now + 26.4 hours = 95040000 ms, not now + 26 hours
= 93600000 ms: the code adds the unrounded base hours to the clock. -/
theorem c6_timestamp_not_rounded_hours :
    ((analyzeClaimCharacteristics simpleClaim).toOption.bind (fun ch =>
        (estimateCompletionTime (determineOptimalRoute simpleClaim ch) simpleClaim 0).toOption))
      = some { hours := 26, timestampMs := ratOfNat 95040000 }
    ∧ (0 : ℚ) + (26 : ℚ) * msPerHour ≠ ratOfNat 95040000 := by
  constructor
  · have hch : analyzeClaimCharacteristics simpleClaim
        = Except.ok { complexity := some (1/10), urgency := 0, value := 0, payer := "unknown",
                      patientRisk := 0, previousClaims := [], dentalCodes := ["D0120"],
                      narrativeRequired := false } := by
      with_unfolding_all decide
    have hcx : calculateComplexity simpleClaim = Except.ok (some (1/10)) := by
      with_unfolding_all decide
    have hrp : simpleClaim.requiresPreauth = false := rfl
    have hne : ¬ (("normal" : String) = ("high")) := by simp
    rw [hch]
    norm_num [estimateCompletionTime, determineOptimalRoute, routingTable, jgtB, hcx, hrp,
      jsRound, ratOfNat_eq, msPerHour, Except.toOption, except_ok_bind]
    exact ⟨by rw [if_neg hne]; norm_num, hne⟩
  · norm_num [msPerHour, ratOfNat_eq]

/-- C7: refuted on the code.  `getMetrics` returns the shallow copy
`{ ...this.metrics }`, so an already-returned snapshot shares the nested
`routedClaims` and `averageProcessingTime` objects with the engine: a
subsequent `updateMetrics` changes the count and average reachable through
the snapshot's references from (0, absent) to (1, 5). -/
theorem c7_snapshot_not_immutable :
    (let snap := getMetrics initState
     let s1 := updateMetrics initState RouteType.DEFAULT 5
     initState.store.countObjs snap.routedClaims RouteType.DEFAULT = 0
     ∧ initState.store.avgObjs snap.averageProcessingTime RouteType.DEFAULT = none
     ∧ s1.store.countObjs snap.routedClaims RouteType.DEFAULT = 1
     ∧ s1.store.avgObjs snap.averageProcessingTime RouteType.DEFAULT = some 5) := by
  refine ⟨by with_unfolding_all decide, by with_unfolding_all decide, by with_unfolding_all decide, by with_unfolding_all decide⟩

/-- C9: refuted on the code.  A claim with an empty procedure list is an
invalid procedure list on which `routeClaim` fails (it throws), yet the
failing call has already updated every metrics field: totalClaims,
the DEFAULT routed-claims count, the DEFAULT average processing time, and
aiOptimizations are all incremented before the throw. -/
theorem c9_failed_routing_mutates_metrics :
    (let out := routeClaim defaultRouterOptions initState (some emptyProcClaim) 0 5
     (out.1.isOk = false)
     ∧ out.2.metrics.totalClaims = 1
     ∧ out.2.store.countObjs out.2.metrics.routedClaims RouteType.DEFAULT = 1
     ∧ out.2.store.avgObjs out.2.metrics.averageProcessingTime RouteType.DEFAULT = some 5
     ∧ out.2.metrics.aiOptimizations = 1
     ∧ initState.metrics.totalClaims = 0) := by
  exact ⟨by with_unfolding_all decide, by with_unfolding_all decide, by with_unfolding_all decide, by with_unfolding_all decide, by with_unfolding_all decide, by with_unfolding_all decide⟩

/-- C4: confirmed.  Whenever the characteristics carry a well-defined
(non-NaN) complexity, the confidence attached to the selected route is the
urgency for EMERGENCY, the complexity for COMPLEX, the value for HIGH_VALUE,
exactly 0.85 for PREAUTHORIZATION, and 1 − max(urgency, complexity, value)
for DEFAULT. -/
theorem c4_confidence_matches_driver (claim : Claim) (ch : Characteristics) (c : ℚ)
    (hc : ch.complexity = some c) :
    ((determineOptimalRoute claim ch).type = RouteType.EMERGENCY →
        (determineOptimalRoute claim ch).confidenceScore = some ch.urgency)
    ∧ ((determineOptimalRoute claim ch).type = RouteType.COMPLEX →
        (determineOptimalRoute claim ch).confidenceScore = some c)
    ∧ ((determineOptimalRoute claim ch).type = RouteType.HIGH_VALUE →
        (determineOptimalRoute claim ch).confidenceScore = some ch.value)
    ∧ ((determineOptimalRoute claim ch).type = RouteType.PREAUTHORIZATION →
        (determineOptimalRoute claim ch).confidenceScore = some (85/100))
    ∧ ((determineOptimalRoute claim ch).type = RouteType.DEFAULT →
        (determineOptimalRoute claim ch).confidenceScore
          = some (1 - max (max ch.urgency c) ch.value)) := by
  by_cases h1 : ch.urgency > 7/10 <;>
    by_cases h2 : jgtB (some c) (7/10) = true <;>
      by_cases h3 : ch.value > 7/10 <;>
        by_cases h4 : claim.requiresPreauth = true <;>
          simp [determineOptimalRoute, calculateRouteConfidence, jmax3, hc, h1, h2, h3, h4]

/-- A characteristics record used to instantiate the C4 theorem. -/
def sampleCharacteristics : Characteristics :=
  { complexity := some (1/10), urgency := 0, value := 0, payer := "unknown",
    patientRisk := 0, previousClaims := [], dentalCodes := ["D0120"],
    narrativeRequired := false }

/-- Witness for C4 at a concrete claim and characteristics. -/
theorem c4_confidence_witness :
    sampleCharacteristics.complexity = some (1/10)
    ∧ (((determineOptimalRoute simpleClaim sampleCharacteristics).type = RouteType.EMERGENCY →
          (determineOptimalRoute simpleClaim sampleCharacteristics).confidenceScore
            = some sampleCharacteristics.urgency)
      ∧ ((determineOptimalRoute simpleClaim sampleCharacteristics).type = RouteType.COMPLEX →
          (determineOptimalRoute simpleClaim sampleCharacteristics).confidenceScore = some (1/10))
      ∧ ((determineOptimalRoute simpleClaim sampleCharacteristics).type = RouteType.HIGH_VALUE →
          (determineOptimalRoute simpleClaim sampleCharacteristics).confidenceScore
            = some sampleCharacteristics.value)
      ∧ ((determineOptimalRoute simpleClaim sampleCharacteristics).type = RouteType.PREAUTHORIZATION →
          (determineOptimalRoute simpleClaim sampleCharacteristics).confidenceScore = some (85/100))
      ∧ ((determineOptimalRoute simpleClaim sampleCharacteristics).type = RouteType.DEFAULT →
          (determineOptimalRoute simpleClaim sampleCharacteristics).confidenceScore
            = some (1 - max (max sampleCharacteristics.urgency (1/10)) sampleCharacteristics.value))) :=
  ⟨rfl, c4_confidence_matches_driver simpleClaim sampleCharacteristics (1/10) rfl⟩

theorem complexityCountTerm_nonneg (procs : List Procedure) :
    0 ≤ complexityCountTerm procs :=
  le_min (by positivity) (by norm_num)

theorem complexityAttachmentsTerm_nonneg (a : Option (List String)) :
    0 ≤ complexityAttachmentsTerm a := by
  rcases a with _ | atts
  · simp [complexityAttachmentsTerm]
  · simp only [complexityAttachmentsTerm]
    split_ifs
    · exact le_min (by positivity) (by norm_num)
    · norm_num

theorem complexityHistoryTerm_nonneg (h : Option PatientHistory) :
    0 ≤ complexityHistoryTerm h := by
  rcases h with _ | hist
  · simp [complexityHistoryTerm]
  · exact le_min (by positivity) (by norm_num)

theorem urgencyEmergencyTerm_nonneg (b : Bool) : 0 ≤ urgencyEmergencyTerm b := by
  unfold urgencyEmergencyTerm
  split_ifs <;> norm_num

theorem urgencyRecencyTerm_nonneg (sd sub : Option ℚ) : 0 ≤ urgencyRecencyTerm sd sub := by
  rcases sd with _ | s <;> rcases sub with _ | t <;>
    simp only [urgencyRecencyTerm] <;> try norm_num
  split_ifs <;> norm_num

theorem urgencyStatusTerm_nonneg (st : Option String) : 0 ≤ urgencyStatusTerm st := by
  unfold urgencyStatusTerm
  split_ifs <;> norm_num

theorem urgencyPainTerm_nonneg (b : Bool) : 0 ≤ urgencyPainTerm b := by
  unfold urgencyPainTerm
  split_ifs <;> norm_num

theorem riskDeniedTerm_nonneg (prev : Option (List PrevClaim)) : 0 ≤ riskDeniedTerm prev := by
  rcases prev with _ | l
  · simp [riskDeniedTerm]
  · exact le_min (by positivity) (by norm_num)

theorem riskHistoryTerm_nonneg (h : Option PatientHistory) : 0 ≤ riskHistoryTerm h := by
  rcases h with _ | hist
  · simp [riskHistoryTerm]
  · exact le_min (by positivity) (by norm_num)

theorem riskCoverageTerm_nonneg (cv : Option String) : 0 ≤ riskCoverageTerm cv := by
  rcases cv with _ | s
  · simp [riskCoverageTerm]
  · simp only [riskCoverageTerm]
    split_ifs <;> norm_num

theorem riskPaymentTerm_nonneg (ph : Option String) : 0 ≤ riskPaymentTerm ph := by
  unfold riskPaymentTerm
  split_ifs <;> norm_num

theorem foldl_fee_nonneg (ps : List Procedure) (hfee : ∀ p ∈ ps, 0 ≤ p.fee.getD 0) :
    ∀ a : ℚ, 0 ≤ a → 0 ≤ ps.foldl (fun s p => s + p.fee.getD 0) a := by
  induction ps with
  | nil => intro a ha; simpa using ha
  | cons p t ih =>
      intro a ha
      simp only [List.foldl_cons]
      exact ih (fun q hq => hfee q (List.mem_cons_of_mem _ hq)) _
        (add_nonneg ha (hfee p (List.mem_cons_self _ _)))

theorem valueThreshold_pos : (0:ℚ) < valueThreshold := by
  norm_num [valueThreshold, ratOfNat_eq]

/-- C5: confirmed.  For a claim with a non-empty procedure list and
non-negative fees, each derived score — complexity (which is a well-defined
number, not NaN), urgency, value and patient risk — lies in [0, 1]. -/
theorem c5_scores_in_unit_interval (claim : Claim) (ps : List Procedure)
    (hp : claim.procedures = some ps) (hne : ps ≠ [])
    (hfee : ∀ p ∈ ps, 0 ≤ p.fee.getD 0) :
    (∃ c : ℚ, calculateComplexity claim = Except.ok (some c) ∧ 0 ≤ c ∧ c ≤ 1)
    ∧ (0 ≤ calculateUrgency claim ∧ calculateUrgency claim ≤ 1)
    ∧ (0 ≤ calculateValue claim ∧ calculateValue claim ≤ 1)
    ∧ (0 ≤ calculatePatientRisk claim ∧ calculatePatientRisk claim ≤ 1) := by
  have hlen : ps.length ≠ 0 := fun h0 => hne (List.length_eq_zero.mp h0)
  refine ⟨?_, ⟨?_, min_le_right _ _⟩, ⟨?_, min_le_right _ _⟩, ⟨?_, min_le_right _ _⟩⟩
  · refine ⟨min (complexityCountTerm ps
        + ((ps.filter isComplexProcedure).length : ℚ) / (ps.length : ℚ) * (3/10)
        + complexityAttachmentsTerm claim.attachments
        + complexityHistoryTerm claim.patientHistory) 1, ?_, ?_, min_le_right _ _⟩
    · simp [calculateComplexity, hp, complexityTypeTerm, jdivCount, hlen, jmulC, jadd, jminC]
    · refine le_min ?_ (by norm_num)
      have t1 := complexityCountTerm_nonneg ps
      have t2 : (0:ℚ) ≤ ((ps.filter isComplexProcedure).length : ℚ) / (ps.length : ℚ) * (3/10) := by
        positivity
      have t3 := complexityAttachmentsTerm_nonneg claim.attachments
      have t4 := complexityHistoryTerm_nonneg claim.patientHistory
      linarith
  · refine le_min ?_ (by norm_num)
    have t1 := urgencyEmergencyTerm_nonneg claim.emergency
    have t2 := urgencyRecencyTerm_nonneg claim.serviceDate claim.submissionDate
    have t3 := urgencyStatusTerm_nonneg claim.patientStatus
    have t4 := urgencyPainTerm_nonneg claim.painIndicated
    linarith
  · refine le_min ?_ (by norm_num)
    have htot : 0 ≤ claimTotalFees claim := by
      simp only [claimTotalFees, hp]
      split_ifs
      · exact foldl_fee_nonneg ps hfee 0 le_rfl
      · norm_num
    exact div_nonneg htot (le_of_lt valueThreshold_pos)
  · refine le_min ?_ (by norm_num)
    have t1 := riskDeniedTerm_nonneg claim.previousClaims
    have t2 := riskHistoryTerm_nonneg claim.patientHistory
    have t3 := riskCoverageTerm_nonneg claim.coverageVerification
    have t4 := riskPaymentTerm_nonneg claim.patientPaymentHistory
    linarith

/-- Witness for C5 at the boundary claim (one fee-100 procedure). -/
theorem c5_scores_witness :
    (boundaryClaim.procedures = some boundaryProcs ∧ boundaryProcs ≠ []
      ∧ ∀ p ∈ boundaryProcs, 0 ≤ p.fee.getD 0)
    ∧ ((∃ c : ℚ, calculateComplexity boundaryClaim = Except.ok (some c) ∧ 0 ≤ c ∧ c ≤ 1)
      ∧ (0 ≤ calculateUrgency boundaryClaim ∧ calculateUrgency boundaryClaim ≤ 1)
      ∧ (0 ≤ calculateValue boundaryClaim ∧ calculateValue boundaryClaim ≤ 1)
      ∧ (0 ≤ calculatePatientRisk boundaryClaim ∧ calculatePatientRisk boundaryClaim ≤ 1)) :=
  ⟨⟨rfl, by simp [boundaryProcs], by
      intro p hp
      rw [boundaryProcs, List.mem_singleton] at hp
      subst hp
      norm_num⟩,
   c5_scores_in_unit_interval boundaryClaim boundaryProcs rfl (by simp [boundaryProcs]) (by
      intro p hp
      rw [boundaryProcs, List.mem_singleton] at hp
      subst hp
      norm_num)⟩

/-- C6 amended: the hours are round(base × (1 + complexity)) with the base
from the priority/type table, but the timestamp is now plus the UNROUNDED
base × (1 + complexity) hours.  The typeError path (absent procedures) and
the rangeError path (NaN complexity) are excluded by the hypothesis that the
recomputed complexity is a number. -/
theorem c6_completion_estimate_amended (route : Route) (claim : Claim) (nowMs c : ℚ)
    (hc : calculateComplexity claim = Except.ok (some c)) :
    estimateCompletionTime route claim nowMs
      = Except.ok { hours := jsRound (specBaseHours route * (1 + c)),
                    timestampMs := nowMs + specBaseHours route * (1 + c) * msPerHour } := by
  cases h : route.type <;>
    simp [estimateCompletionTime, specBaseHours, hc, h, except_ok_bind]

/-- Witness for the amended C6 at a concrete DEFAULT route and claim. -/
theorem c6_completion_estimate_witness :
    calculateComplexity simpleClaim = Except.ok (some (1/10))
    ∧ estimateCompletionTime sampleDefaultRoute simpleClaim 0
        = Except.ok { hours := jsRound (specBaseHours sampleDefaultRoute * (1 + 1/10)),
                      timestampMs := 0 + specBaseHours sampleDefaultRoute * (1 + 1/10) * msPerHour } :=
  ⟨by with_unfolding_all decide,
   c6_completion_estimate_amended sampleDefaultRoute simpleClaim 0 (1/10)
     (by with_unfolding_all decide)⟩

/-- C8: confirmed.  The optimizer returns a copy: every field of the input
claim is carried over unchanged, except that the narrative is replaced by the
placeholder exactly when a narrative is required and the original narrative
is empty or absent, and the fixed recommended-documentation list is attached
exactly when the route type is COMPLEX or HIGH_VALUE.  (Being a pure
function of the input record, the optimizer cannot mutate the caller's
claim.) -/
theorem c8_optimizer_additive (opts : RouterOptions) (claim : Claim) (route : Route)
    (oc : OptimizedClaim) (applied nr : Bool)
    (hnr : isNarrativeRequired claim = Except.ok nr)
    (h : applyAIOptimizations opts claim route = Except.ok (oc, applied)) :
    oc.toClaim = (if nr && narrativeMissing claim then
                    { claim with narrative := some aiNarrativePlaceholder } else claim)
    ∧ oc.recommendedDocumentation
        = (if route.type == RouteType.COMPLEX || route.type == RouteType.HIGH_VALUE then
             some recommendedDocs else none) := by
  simp only [applyAIOptimizations, hnr, except_ok_bind] at h
  have hp := Except.ok.inj h
  rw [Prod.mk.injEq] at hp
  obtain ⟨h1, h2⟩ := hp
  constructor
  · rw [← h1]
    rcases hb : (nr && narrativeMissing claim) <;> simp [hb]
  · rw [← h1]

/-- Witness for C8 at a concrete claim and route (no rule fires, so the
copy equals the input claim and carries no recommended documentation). -/
theorem c8_optimizer_witness :
    isNarrativeRequired simpleClaim = Except.ok false
    ∧ applyAIOptimizations defaultRouterOptions simpleClaim sampleDefaultRoute
        = Except.ok (⟨simpleClaim, none⟩, true)
    ∧ ((⟨simpleClaim, none⟩ : OptimizedClaim).toClaim
          = (if false && narrativeMissing simpleClaim then
               { simpleClaim with narrative := some aiNarrativePlaceholder } else simpleClaim)
      ∧ (⟨simpleClaim, none⟩ : OptimizedClaim).recommendedDocumentation
          = (if sampleDefaultRoute.type == RouteType.COMPLEX
                || sampleDefaultRoute.type == RouteType.HIGH_VALUE then
               some recommendedDocs else none)) :=
  ⟨by with_unfolding_all decide, by with_unfolding_all decide,
   c8_optimizer_additive defaultRouterOptions simpleClaim sampleDefaultRoute
     ⟨simpleClaim, none⟩ true false (by with_unfolding_all decide)
     (by with_unfolding_all decide)⟩

end BillingRouter
